import Mathlib

/-!
Shallow embedding of the `update-available` Rust library
(`src/data.rs`, `src/logic.rs`, `src/lib.rs`) and proofs about its
update-resolution, tag-normalization, error-handling and display logic.

External collaborators (HTTP transport, JSON deserialization) are
modelled as already-delivered values: a dispatcher operation receives an
`HttpResponse` holding the numeric status and the deserialization
outcome of the body, exactly as the Rust code receives them from
`ureq`/`serde`.
-/

namespace UpdateAvailableLib

/-- Semantic version as stored by the `semver` crate: numeric
`major.minor.patch` plus the raw pre-release and build-metadata strings
(empty string = absent), mirroring `semver::Version`. -/
structure Version where
  major : Nat
  minor : Nat
  patch : Nat
  pre : String
  build : String
deriving DecidableEq, Repr

/-- Characters allowed in semver pre-release/build identifiers:
ASCII alphanumerics and the hyphen. -/
def isIdentChar (c : Char) : Bool :=
  c.isAlpha || c.isDigit || c == '-'

/-- Numeric value of a list of decimal digit characters. -/
def digitsVal (ds : List Char) : Nat :=
  ds.foldl (fun a c => a * 10 + (c.toNat - 48)) 0

/-- Parse one numeric identifier (major/minor/patch component) from the
front of the character list, enforcing the `semver` crate's rules:
non-empty digit run, no leading zero, value fits in a `u64`. -/
def parseNumericIdent (cs : List Char) : Except String (Nat × List Char) :=
  let ds := cs.takeWhile (fun c => c.isDigit)
  let rest := cs.dropWhile (fun c => c.isDigit)
  if ds.isEmpty then
    Except.error "unexpected character while parsing version number"
  else if ds.length > 1 && ds.head? == some '0' then
    Except.error "invalid leading zero in version number"
  else if digitsVal ds ≥ 18446744073709551616 then
    Except.error "value of version number exceeds u64 range"
  else
    Except.ok (digitsVal ds, rest)

/-- Consume a literal `.` separator between version components. -/
def expectDot (cs : List Char) : Except String (List Char) :=
  match cs with
  | c :: rest => if c = '.' then Except.ok rest else Except.error "expected dot"
  | [] => Except.error "expected dot"

/-- Split a character list on `.` into identifier segments. -/
def splitDots : List Char → List (List Char)
  | [] => [[]]
  | c :: rest =>
    if c = '.' then [] :: splitDots rest
    else
      match splitDots rest with
      | seg :: segs => (c :: seg) :: segs
      | [] => [[c]]

/-- A valid semver pre-release identifier segment: non-empty,
alphanumeric/hyphen, and a purely numeric segment has no leading zero. -/
def validPreIdent (seg : List Char) : Bool :=
  !seg.isEmpty && seg.all isIdentChar &&
    (if seg.all (fun c => c.isDigit) then seg.length == 1 || seg.head? != some '0' else true)

/-- A valid semver build-metadata identifier segment: non-empty,
alphanumeric/hyphen (leading zeros allowed). -/
def validBuildIdent (seg : List Char) : Bool :=
  !seg.isEmpty && seg.all isIdentChar

/-- Parse the optional `-prerelease` and `+build` parts that follow the
`major.minor.patch` core, requiring the whole input to be consumed. -/
def parseExtra (cs : List Char) : Except String (String × String) :=
  match cs with
  | [] => Except.ok ("", "")
  | c :: rest =>
    if c = '-' then
      let preChars := rest.takeWhile (fun d => isIdentChar d || d == '.')
      let rest2 := rest.dropWhile (fun d => isIdentChar d || d == '.')
      if (splitDots preChars).all validPreIdent then
        match rest2 with
        | [] => Except.ok (String.mk preChars, "")
        | d :: bs =>
          if d = '+' then
            if bs.all (fun e => isIdentChar e || e == '.') && (splitDots bs).all validBuildIdent then
              Except.ok (String.mk preChars, String.mk bs)
            else Except.error "invalid build metadata"
          else Except.error "unexpected character in version"
      else Except.error "invalid pre-release identifier"
    else if c = '+' then
      if rest.all (fun e => isIdentChar e || e == '.') && (splitDots rest).all validBuildIdent then
        Except.ok ("", String.mk rest)
      else Except.error "invalid build metadata"
    else Except.error "unexpected character after patch version"

/-- `semver::Version::parse`: `major.minor.patch` with optional
`-prerelease` and `+build` suffixes; the empty string and any
syntactically malformed input are rejected. -/
def Version.parse (text : String) : Except String Version :=
  if text = "" then Except.error "empty string, expected a semantic version"
  else
    match parseNumericIdent text.data with
    | Except.error e => Except.error e
    | Except.ok (major, r1) =>
      match expectDot r1 with
      | Except.error e => Except.error e
      | Except.ok r1 =>
        match parseNumericIdent r1 with
        | Except.error e => Except.error e
        | Except.ok (minor, r2) =>
          match expectDot r2 with
          | Except.error e => Except.error e
          | Except.ok r2 =>
            match parseNumericIdent r2 with
            | Except.error e => Except.error e
            | Except.ok (patch, r3) =>
              match parseExtra r3 with
              | Except.error e => Except.error e
              | Except.ok (pre, build) =>
                Except.ok ⟨major, minor, patch, pre, build⟩

/-- Rendering of a `semver::Version` (its `Display` impl):
`major.minor.patch`, then `-pre` and `+build` when present. -/
def Version.toDisplay (v : Version) : String :=
  toString v.major ++ "." ++ toString v.minor ++ "." ++ toString v.patch
    ++ (if v.pre = "" then "" else "-" ++ v.pre)
    ++ (if v.build = "" then "" else "+" ++ v.build)

/-- `data.rs` `UpdateAvailable`: package name and current version string. -/
structure UpdateAvailable where
  name : String
  current_version : String

/-- `data.rs` `GiteaHubResponse`: GitHub/Gitea release-API response. -/
structure GiteaHubResponse where
  tag_name : String
  body : Option String
  html_url : String

/-- `data.rs` `CrateInfo`: the `crate` object of a crates.io response. -/
structure CrateInfo where
  max_version : Version
  name : String

/-- `data.rs` `CratesResponse`: the crates.io API response wrapper. -/
structure CratesResponse where
  info : CrateInfo

/-- `data.rs` `UpdateInfo`: the normalized output value. -/
structure UpdateInfo where
  is_update_available : Bool
  latest_version : Version
  changelog : Option String
  url : String
deriving DecidableEq, Repr

/-- Rust's derived lexicographic comparison on a `(u64, u64, u64)`
tuple: compare the first components, then on equality the second, then
the third (how `(a, b, c) > (d, e, f)` is evaluated in `UpdateInfo::new`). -/
def tripleCompare (l c : Nat × Nat × Nat) : Ordering :=
  (compare l.1 c.1).then ((compare l.2.1 c.2.1).then (compare l.2.2 c.2.2))

/-- `UpdateInfo::new` (`data.rs`): decides `is_update_available` by
comparing the `(major, minor, patch)` tuples of the two versions and
stores the remaining fields unchanged. -/
def UpdateInfo.new (latest_version : Version) (current_version : Version)
    (changelog : Option String) (url : String) : UpdateInfo :=
  let is_update_available :=
    tripleCompare (latest_version.major, latest_version.minor, latest_version.patch)
      (current_version.major, current_version.minor, current_version.patch) == Ordering.gt
  { is_update_available, latest_version, changelog, url }

/-- `UpdateInfo::from_crates` (`data.rs`): latest version comes
pre-parsed from the response, the current version string is parsed (its
failure wrapped with a "current" marker), the URL is the canonical
crates.io package page, and no changelog is carried. -/
def UpdateInfo.from_crates (crates_response : CratesResponse)
    (current_version : String) : Except String UpdateInfo :=
  let latest_version := crates_response.info.max_version
  match Version.parse current_version with
  | Except.error e => Except.error ("Failed to parse current version: " ++ e)
  | Except.ok current_version =>
    let url := "https://crates.io/crates/" ++ crates_response.info.name
    Except.ok (UpdateInfo.new latest_version current_version none url)

/-- The tag normalization in `UpdateInfo::from_gitea_or_hub`
(`data.rs` lines 123-126): remove one leading `v` character from the
tag when present, otherwise keep the tag unchanged. -/
def normalizeTag (tag : String) : String :=
  match tag.data with
  | c :: rest => if c = 'v' then String.mk rest else tag
  | [] => tag

/-- `UpdateInfo::from_gitea_or_hub` (`data.rs`): normalize the tag,
parse it as the latest version (failure wrapped with a "latest" marker),
then parse the current version string (failure wrapped with a "current"
marker), and carry the release body and HTML URL through unchanged. -/
def UpdateInfo.from_gitea_or_hub (response : GiteaHubResponse)
    (current_version : String) : Except String UpdateInfo :=
  let latest_version := normalizeTag response.tag_name
  match Version.parse latest_version with
  | Except.error e => Except.error ("Failed to parse latest version: " ++ e)
  | Except.ok latest_version =>
    match Version.parse current_version with
    | Except.error e => Except.error ("Failed to parse current version: " ++ e)
    | Except.ok current_version =>
      Except.ok (UpdateInfo.new latest_version current_version
        response.body response.html_url)

/-- Rust `str::lines`, as used on the changelog: split on `'\n'`
(a final line needs no terminator; a piece that ended at a `'\n'` also
loses one trailing `'\r'`; the empty string has no lines).
`acc` holds the current line's characters in reverse. -/
def linesAux (acc : List Char) : List Char → List String
  | [] => if acc.isEmpty then [] else [String.mk acc.reverse]
  | c :: rest =>
    if c = '\n' then
      let line := acc.reverse
      let line := if line.getLast? = some '\r' then line.dropLast else line
      String.mk line :: linesAux [] rest
    else linesAux (c :: acc) rest

/-- Rust `changelog.lines()`. -/
def rustLines (s : String) : List String :=
  linesAux [] s.data

/-- Rust `line.trim_start_matches('•')`: drop every leading `•`. -/
def dropLeadingBullets (s : String) : String :=
  String.mk (s.data.dropWhile (fun c => c == '•'))

/-- Rust `line.trim().is_empty()`: the line has only whitespace. -/
def isBlankLine (line : String) : Bool :=
  line.data.all (fun c => c.isWhitespace)

/-- Rust `s.starts_with(p)` for a literal pattern. -/
def startsWithLit (s : String) (p : String) : Bool :=
  p.data.isPrefixOf s.data

/-- The loop body of the changelog loop in `impl Display for UpdateInfo`
(`data.rs` lines 158-167): `none` when the line is skipped (`continue`),
otherwise the text written for it. -/
def renderChangelogLine (line : String) : Option String :=
  if isBlankLine line || startsWithLit line "## " then none
  else if startsWithLit line "-" || startsWithLit line "*" then some ("    " ++ line)
  else if startsWithLit line "•" then some ("    " ++ dropLeadingBullets line)
  else some ("    • " ++ line)

/-- The filter of the `(and more...)` count in `impl Display for
UpdateInfo` (`data.rs` lines 169-173): a line counts when it is neither
blank nor a `## ` markdown header. -/
def isQualifyingLine (line : String) : Bool :=
  !(isBlankLine line) && !(startsWithLit line "## ")

/-- The changelog block of `impl Display for UpdateInfo`
(`data.rs` lines 155-177): header, then the loop over
`changelog.lines().take(4)` with the skip/render rules, then the
`(and more...)` bullet when more than 4 qualifying lines exist in the
whole changelog. -/
def changelogSection (changelog : String) : List String :=
  "📝  Changelog:" ::
    (((rustLines changelog).take 4).filterMap renderChangelogLine
      ++ (if ((rustLines changelog).filter isQualifyingLine).length > 4 then
            ["    • (and more...)"]
          else []))

/-- `impl Display for UpdateInfo` (`data.rs` lines 150-181) as the list
of written lines: empty unless `is_update_available`, else banner,
latest version, optional changelog block, and the more-info footer. -/
def UpdateInfo.displayLines (u : UpdateInfo) : List String :=
  if u.is_update_available then
    ["🚀  A new version is available!",
     "🔖  Latest version: " ++ u.latest_version.toDisplay]
    ++ (match u.changelog with
        | some changelog => changelogSection changelog
        | none => [])
    ++ ["🌐  More info: " ++ u.url]
  else []

/-- The string produced by `format!("{self}")`: every written line
followed by a newline. -/
def UpdateInfo.displayString (u : UpdateInfo) : String :=
  String.join (u.displayLines.map (fun l => l ++ "\n"))

/-- `UpdateInfo::print` (`data.rs` lines 143-147): stdout text of
`println!("{self}")` guarded by `is_update_available` (the trailing
newline is `println!`'s own). -/
def UpdateInfo.printOutput (u : UpdateInfo) : String :=
  if u.is_update_available then u.displayString ++ "\n" else ""

/-- A transport response as the dispatcher sees it: the numeric HTTP
status and the outcome of deserializing the body as `β`. -/
structure HttpResponse (β : Type) where
  status : Nat
  body : Except String β

/-- `http::StatusCode::is_success`: a 2xx status. -/
def statusIsSuccess (s : Nat) : Bool :=
  200 ≤ s && s < 300

/-- `UpdateAvailable::crates_io` (`logic.rs` lines 39-53), over the
transport's response, as the pair (text the call writes to stdout,
returned result): on 2xx deserialize and resolve (writing nothing),
otherwise `println!` the fetch failure and bail with a fetch error
carrying the status. -/
def UpdateAvailable.crates_io (self : UpdateAvailable)
    (response : HttpResponse CratesResponse) :
    String × Except String UpdateInfo :=
  let _url := "https://crates.io/api/v1/crates/" ++ self.name
  if statusIsSuccess response.status then
    match response.body with
    | Except.ok json => ("", UpdateInfo.from_crates json self.current_version)
    | Except.error e => ("", Except.error e)
  else
    ("Failed to fetch data from crates.io: " ++ toString response.status ++ "\n",
     Except.error ("Failed to fetch data from crates.io: " ++ toString response.status))

/-- `UpdateAvailable::github` (`logic.rs` lines 78-95), over the
transport's response, as the pair (stdout text, returned result). -/
def UpdateAvailable.github (self : UpdateAvailable) (user : String)
    (response : HttpResponse GiteaHubResponse) :
    String × Except String UpdateInfo :=
  let _url := "https://api.github.com/repos/" ++ user ++ "/" ++ self.name
    ++ "/releases/latest"
  if statusIsSuccess response.status then
    match response.body with
    | Except.ok json => ("", UpdateInfo.from_gitea_or_hub json self.current_version)
    | Except.error e => ("", Except.error e)
  else
    ("Failed to fetch data from GitHub: " ++ toString response.status ++ "\n",
     Except.error ("Failed to fetch data from GitHub: " ++ toString response.status))

/-- `UpdateAvailable::gitea` (`logic.rs` lines 122-139), over the
transport's response, as the pair (stdout text, returned result). -/
def UpdateAvailable.gitea (self : UpdateAvailable) (user : String)
    (gitea_url : String) (response : HttpResponse GiteaHubResponse) :
    String × Except String UpdateInfo :=
  let _url := gitea_url ++ "/api/v1/repos/" ++ user ++ "/" ++ self.name
    ++ "/releases/latest"
  if statusIsSuccess response.status then
    match response.body with
    | Except.ok json => ("", UpdateInfo.from_gitea_or_hub json self.current_version)
    | Except.error e => ("", Except.error e)
  else
    ("Failed to fetch data from Gitea: " ++ toString response.status ++ "\n",
     Except.error ("Failed to fetch data from Gitea: " ++ toString response.status))

/-- `lib.rs` `Source`: which upstream to query. -/
inductive Source where
  | CratesIo : Source
  | Github : String → Source
  | Gitea : String → String → Source

/-- The `match source` dispatch inside `print_check` (`lib.rs` lines
48-55), which routes through `check_crates_io`/`check_github`/the gitea
method; transport responses for the two body shapes are passed in. The
result is the pair (text the dispatched call writes to stdout, its
returned result). -/
def dispatchCheck (name : String) (current_version : String) (source : Source)
    (rc : HttpResponse CratesResponse) (rf : HttpResponse GiteaHubResponse) :
    String × Except String UpdateInfo :=
  match source with
  | Source.CratesIo => (UpdateAvailable.mk name current_version).crates_io rc
  | Source.Github user => (UpdateAvailable.mk name current_version).github user rf
  | Source.Gitea user gitea_url =>
    (UpdateAvailable.mk name current_version).gitea user gitea_url rf

/-- `print_check` (`lib.rs` lines 47-59) as the text it writes to
stdout: whatever the dispatched check itself printed while running,
then, on a successful check, `info.print()`; an error result adds
nothing and is dropped. -/
def print_check (name : String) (current_version : String) (source : Source)
    (rc : HttpResponse CratesResponse) (rf : HttpResponse GiteaHubResponse) :
    String :=
  let result := dispatchCheck name current_version source rc rf
  result.1 ++
    (match result.2 with
     | Except.ok info => info.printOutput
     | Except.error _ => "")

/-- The lexicographic tuple comparison yields `gt` exactly when the
first tuple is lexicographically greater. -/
theorem tripleCompare_eq_gt_iff (a₁ a₂ a₃ b₁ b₂ b₃ : Nat) :
    tripleCompare (a₁, a₂, a₃) (b₁, b₂, b₃) = Ordering.gt ↔
      (b₁ < a₁ ∨ (a₁ = b₁ ∧ (b₂ < a₂ ∨ (a₂ = b₂ ∧ b₃ < a₃)))) := by
  unfold tripleCompare
  simp only [Nat.compare_def_lt]
  repeat' split
  all_goals simp_all [Ordering.then]
  all_goals omega

/-- Boolean equality with `Ordering.gt`, as a proposition. -/
theorem ordering_beq_gt (o : Ordering) :
    ((o == Ordering.gt) = true ↔ o = Ordering.gt)
    ∧ ((o == Ordering.gt) = false ↔ o ≠ Ordering.gt) := by
  cases o <;> exact ⟨by decide, by decide⟩

end UpdateAvailableLib

namespace UpdateAvailableLib

/-- Claim C1: the `is_update_available` flag computed by
`UpdateInfo::new` equals the lexicographic comparison
`(latest.major, latest.minor, latest.patch) >
(current.major, current.minor, current.patch)`; pre-release and build
metadata never influence it, and a latest version whose triple equals
the current one is not reported as an update even when its pre-release
or build metadata differ. -/
theorem C1_new_flag_is_triple_lex_compare (l c : Version)
    (ch : Option String) (u : String) :
    ((UpdateInfo.new l c ch u).is_update_available = true ↔
      (c.major < l.major ∨ (l.major = c.major ∧
        (c.minor < l.minor ∨ (l.minor = c.minor ∧ c.patch < l.patch)))))
    ∧ (∀ p₁ b₁ p₂ b₂ : String,
        (UpdateInfo.new ⟨l.major, l.minor, l.patch, p₁, b₁⟩
          ⟨c.major, c.minor, c.patch, p₂, b₂⟩ ch u).is_update_available
        = (UpdateInfo.new l c ch u).is_update_available)
    ∧ (l.major = c.major → l.minor = c.minor → l.patch = c.patch →
        (UpdateInfo.new l c ch u).is_update_available = false) := by
  refine ⟨?_, fun p₁ b₁ p₂ b₂ => rfl, ?_⟩
  · simp only [UpdateInfo.new]
    rw [(ordering_beq_gt _).1]
    exact tripleCompare_eq_gt_iff l.major l.minor l.patch c.major c.minor c.patch
  · intro h₁ h₂ h₃
    simp only [UpdateInfo.new]
    rw [(ordering_beq_gt _).2, ne_eq, tripleCompare_eq_gt_iff]
    omega

/-- Witness for C1 at a concrete input: latest `1.2.3-alpha+b5` against
current `1.2.3+b9` has an equal `(major, minor, patch)` triple and is
not reported as an update. -/
theorem C1_new_flag_is_triple_lex_compare_witness :
    (UpdateInfo.new ⟨1, 2, 3, "alpha", "b5"⟩ ⟨1, 2, 3, "", "b9"⟩
      none "u").is_update_available = false :=
  (C1_new_flag_is_triple_lex_compare ⟨1, 2, 3, "alpha", "b5"⟩
    ⟨1, 2, 3, "", "b9"⟩ none "u").2.2 rfl rfl rfl

/-- Claim C2: `from_gitea_or_hub` normalizes the tag by removing exactly
one leading literal `v` when present and leaving the tag unchanged
otherwise (`"v1.2.3"` becomes `"1.2.3"`, `"1.2.3"` stays `"1.2.3"`), and
a tag of literally `"v"` becomes the empty string and yields a
version-parse error on the "latest" side rather than a crash or a
silently defaulted version. -/
theorem C2_tag_normalization :
    (∀ s : String, normalizeTag ("v" ++ s) = s)
    ∧ (∀ s : String, s.data.head? ≠ some 'v' → normalizeTag s = s)
    ∧ normalizeTag "v1.2.3" = "1.2.3"
    ∧ normalizeTag "1.2.3" = "1.2.3"
    ∧ normalizeTag "v" = ""
    ∧ Version.parse "" =
        Except.error "empty string, expected a semantic version"
    ∧ (∀ (gr : GiteaHubResponse) (cur : String), gr.tag_name = "v" →
        UpdateInfo.from_gitea_or_hub gr cur = Except.error
          ("Failed to parse latest version: empty string, expected a semantic version")) := by
  refine ⟨?_, ?_, rfl, rfl, rfl, rfl, ?_⟩
  · intro s
    show normalizeTag (String.mk ("v".data ++ s.data)) = s
    cases s
    rfl
  · intro s h
    cases s with
    | mk data =>
      cases data with
      | nil => rfl
      | cons c cs =>
        simp only [String.data, List.head?, ne_eq, Option.some.injEq] at h
        simp [normalizeTag, h]
  · intro gr cur h
    obtain ⟨tag, body, url⟩ := gr
    cases h
    rfl

/-- Witness for C2 at a concrete input: the general conjuncts applied
to the tag `"v1.0.0"` and to the unprefixed tag `"1.0.0"`, and the
latest-side error for a response whose tag is literally `"v"`. -/
theorem C2_tag_normalization_witness :
    normalizeTag ("v" ++ "1.0.0") = "1.0.0"
    ∧ normalizeTag "1.0.0" = "1.0.0"
    ∧ UpdateInfo.from_gitea_or_hub ⟨"v", none, "https://example/r"⟩ "1.0.0"
        = Except.error
          ("Failed to parse latest version: empty string, expected a semantic version") :=
  ⟨C2_tag_normalization.1 "1.0.0",
   C2_tag_normalization.2.1 "1.0.0" (by decide),
   C2_tag_normalization.2.2.2.2.2.2 ⟨"v", none, "https://example/r"⟩ "1.0.0" rfl⟩

/-- Claim C5: rendering an `UpdateInfo` with `is_update_available =
false` produces no output at all — the `Display` line list is empty, the
formatted string is empty, and `print` writes nothing — for every value
of changelog, latest version and URL. -/
theorem C5_no_update_no_output :
    ∀ (v : Version) (ch : Option String) (u : String),
      (UpdateInfo.mk false v ch u).displayLines = []
      ∧ (UpdateInfo.mk false v ch u).displayString = ""
      ∧ (UpdateInfo.mk false v ch u).printOutput = "" := by
  intro v ch u
  exact ⟨rfl, rfl, rfl⟩

/-- Claim C3, evaluated at the input where it fails: the changelog
`"## Header\n- a\n- b\n- c\n- d\n- e\n- f"` has 6 qualifying bullet
lines, yet the renderer — which truncates to the first 4 raw lines
before skipping blank/header lines — shows only 3 of them, followed by
the `(and more...)` bullet, instead of the 4 the claim requires. -/
theorem C3_take_before_filter_shows_three :
    ((rustLines "## Header\n- a\n- b\n- c\n- d\n- e\n- f").filter
        isQualifyingLine).length = 6
    ∧ changelogSection "## Header\n- a\n- b\n- c\n- d\n- e\n- f"
        = ["📝  Changelog:", "    - a", "    - b", "    - c",
           "    • (and more...)"]
    ∧ (UpdateInfo.mk true ⟨2, 0, 0, "", ""⟩
        (some "## Header\n- a\n- b\n- c\n- d\n- e\n- f") "u").displayLines
        = ["🚀  A new version is available!",
           "🔖  Latest version: 2.0.0",
           "📝  Changelog:", "    - a", "    - b", "    - c",
           "    • (and more...)",
           "🌐  More info: u"] :=
  ⟨rfl, rfl, rfl⟩

/-- Counterexample to claim C4: the kept changelog line `"- foo"` is
rendered as `"    - foo"`, which keeps its original `-` marker and does
not begin with a `•` marker after the indent. -/
theorem C4_counterexample :
    renderChangelogLine "- foo" = some "    - foo"
    ∧ (UpdateInfo.mk true ⟨1, 0, 0, "", ""⟩ (some "- foo") "u").displayLines
        = ["🚀  A new version is available!",
           "🔖  Latest version: 1.0.0",
           "📝  Changelog:", "    - foo",
           "🌐  More info: u"]
    ∧ ("    - foo".data.drop 4).head? = some '-'
    ∧ '-' ≠ '•' := by
  exact ⟨rfl, rfl, rfl, by decide⟩

/-- Claim C4 as amended: a kept line starting with `-` or `*` is
rendered indented but otherwise verbatim, keeping its original marker
and gaining no `•`; a kept line starting with `•` is rendered with all
its leading `•` characters removed and no marker added back; every other
kept line is rendered with a `• ` marker added; so a displayed changelog
line does not in general begin with a `•` marker. -/
theorem C4_render_rules_amended (line : String)
    (hkept : isQualifyingLine line = true) :
    ((startsWithLit line "-" = true ∨ startsWithLit line "*" = true) →
      renderChangelogLine line = some ("    " ++ line))
    ∧ (startsWithLit line "-" = false → startsWithLit line "*" = false →
        startsWithLit line "•" = true →
        renderChangelogLine line = some ("    " ++ dropLeadingBullets line))
    ∧ (startsWithLit line "-" = false → startsWithLit line "*" = false →
        startsWithLit line "•" = false →
        renderChangelogLine line = some ("    • " ++ line)) := by
  simp only [isQualifyingLine, Bool.and_eq_true, Bool.not_eq_true',
    Bool.not_eq_true] at hkept
  obtain ⟨hblank, hheader⟩ := hkept
  refine ⟨?_, ?_, ?_⟩
  · intro h
    have hb : (startsWithLit line "-" || startsWithLit line "*") = true := by
      rcases h with h | h <;> simp [h]
    simp [renderChangelogLine, hblank, hheader, hb]
  · intro h₁ h₂ h₃
    simp [renderChangelogLine, hblank, hheader, h₁, h₂, h₃]
  · intro h₁ h₂ h₃
    simp [renderChangelogLine, hblank, hheader, h₁, h₂, h₃]

/-- Witness for the amended C4 at concrete inputs: one line per
rendering rule (`"•• new"` loses both leading bullets and gains none
back; `"plain text"` gains one). -/
theorem C4_render_rules_amended_witness :
    renderChangelogLine "* fix" = some "    * fix"
    ∧ renderChangelogLine "•• new" = some ("    " ++ " new")
    ∧ renderChangelogLine "plain text" = some "    • plain text" :=
  ⟨(C4_render_rules_amended "* fix" rfl).1 (Or.inr rfl),
   (C4_render_rules_amended "•• new" rfl).2.1 rfl rfl rfl,
   (C4_render_rules_amended "plain text" rfl).2.2 rfl rfl rfl⟩

/-- Claim C6: for every registry response and every parseable current
version, `from_crates` yields an `UpdateInfo` whose changelog is absent
and whose URL is `"https://crates.io/crates/"` followed by the
response's package name; in particular the response
`{crate: {max_version: "2.0.0", name: "serde"}}` against current
version `"1.0.0"` yields an available update with latest version
`2.0.0`, no changelog, and URL `"https://crates.io/crates/serde"`. -/
theorem C6_from_crates_shape :
    (∀ (cr : CratesResponse) (cur : String) (v : Version),
        Version.parse cur = Except.ok v →
        ∃ u, UpdateInfo.from_crates cr cur = Except.ok u
          ∧ u.changelog = none
          ∧ u.url = "https://crates.io/crates/" ++ cr.info.name
          ∧ u.latest_version = cr.info.max_version)
    ∧ UpdateInfo.from_crates ⟨⟨⟨2, 0, 0, "", ""⟩, "serde"⟩⟩ "1.0.0"
        = Except.ok ⟨true, ⟨2, 0, 0, "", ""⟩, none,
            "https://crates.io/crates/serde"⟩ := by
  refine ⟨?_, rfl⟩
  intro cr cur v h
  refine ⟨UpdateInfo.new cr.info.max_version v none
    ("https://crates.io/crates/" ++ cr.info.name), ?_, rfl, rfl, rfl⟩
  simp only [UpdateInfo.from_crates, h]

/-- Witness for C6 at a concrete input: the general conjunct applied to
the `serde` response and the parseable current version `"1.0.0"`. -/
theorem C6_from_crates_shape_witness :
    ∃ u, UpdateInfo.from_crates ⟨⟨⟨2, 0, 0, "", ""⟩, "serde"⟩⟩ "1.0.0"
        = Except.ok u
      ∧ u.changelog = none
      ∧ u.url = "https://crates.io/crates/" ++ "serde"
      ∧ u.latest_version = ⟨2, 0, 0, "", ""⟩ :=
  C6_from_crates_shape.1 ⟨⟨⟨2, 0, 0, "", ""⟩, "serde"⟩⟩ "1.0.0"
    ⟨1, 0, 0, "", ""⟩ rfl

/-- Claim C7: against any well-formed upstream response (a registry
response, whose latest version is pre-parsed, or a forge response whose
normalized tag parses), a current-version string that is not valid
semantic-version syntax makes both resolvers fail with the
current-side parse error, and no `UpdateInfo` is returned. -/
theorem C7_current_side_error (cr : CratesResponse) (gr : GiteaHubResponse)
    (cur e : String) (lv : Version)
    (hcur : Version.parse cur = Except.error e)
    (hlat : Version.parse (normalizeTag gr.tag_name) = Except.ok lv) :
    UpdateInfo.from_crates cr cur
      = Except.error ("Failed to parse current version: " ++ e)
    ∧ UpdateInfo.from_gitea_or_hub gr cur
      = Except.error ("Failed to parse current version: " ++ e) := by
  constructor
  · simp only [UpdateInfo.from_crates, hcur]
  · simp only [UpdateInfo.from_gitea_or_hub, hlat, hcur]

/-- Witness for C7 at the concrete current-version string
`"not-a-version"`, against a registry response and a forge response
with the parseable tag `"v1.0.0"`. -/
theorem C7_current_side_error_witness :
    Version.parse "not-a-version"
      = Except.error "unexpected character while parsing version number"
    ∧ UpdateInfo.from_crates ⟨⟨⟨2, 0, 0, "", ""⟩, "serde"⟩⟩ "not-a-version"
      = Except.error
        ("Failed to parse current version: unexpected character while parsing version number")
    ∧ UpdateInfo.from_gitea_or_hub ⟨"v1.0.0", none, "https://example/r"⟩
        "not-a-version"
      = Except.error
        ("Failed to parse current version: unexpected character while parsing version number") :=
  ⟨rfl,
   (C7_current_side_error ⟨⟨⟨2, 0, 0, "", ""⟩, "serde"⟩⟩
     ⟨"v1.0.0", none, "https://example/r"⟩ "not-a-version" _
     ⟨1, 0, 0, "", ""⟩ rfl rfl).1,
   (C7_current_side_error ⟨⟨⟨2, 0, 0, "", ""⟩, "serde"⟩⟩
     ⟨"v1.0.0", none, "https://example/r"⟩ "not-a-version" _
     ⟨1, 0, 0, "", ""⟩ rfl rfl).2⟩

/-- Claim C8: every dispatcher operation (`crates_io`, `github`,
`gitea`) given a non-2xx transport status returns a fetch error carrying
that numeric status and never an `UpdateInfo`. -/
theorem C8_non2xx_fetch_error (self : UpdateAvailable)
    (user gitea_url : String)
    (rc : HttpResponse CratesResponse) (rf : HttpResponse GiteaHubResponse)
    (hc : statusIsSuccess rc.status = false)
    (hf : statusIsSuccess rf.status = false) :
    (self.crates_io rc).2 = Except.error
      ("Failed to fetch data from crates.io: " ++ toString rc.status)
    ∧ (self.github user rf).2 = Except.error
      ("Failed to fetch data from GitHub: " ++ toString rf.status)
    ∧ (self.gitea user gitea_url rf).2 = Except.error
      ("Failed to fetch data from Gitea: " ++ toString rf.status) := by
  unfold UpdateAvailable.crates_io UpdateAvailable.github UpdateAvailable.gitea
  simp [hc, hf]

/-- Witness for C8 at status 404: each operation yields the fetch error
mentioning 404, never an `UpdateInfo`. -/
theorem C8_non2xx_fetch_error_witness :
    ((UpdateAvailable.mk "serde" "1.0.0").crates_io ⟨404, Except.error "x"⟩).2
      = Except.error "Failed to fetch data from crates.io: 404"
    ∧ ((UpdateAvailable.mk "r" "1.0.0").github "o" ⟨404, Except.error "x"⟩).2
      = Except.error "Failed to fetch data from GitHub: 404"
    ∧ ((UpdateAvailable.mk "r" "1.0.0").gitea "o" "https://g"
        ⟨404, Except.error "x"⟩).2
      = Except.error "Failed to fetch data from Gitea: 404" :=
  C8_non2xx_fetch_error (UpdateAvailable.mk "serde" "1.0.0") "o" "https://g"
    ⟨404, Except.error "x"⟩ ⟨404, Except.error "x"⟩ rfl rfl
    |>.imp id (fun h => h.imp
      (fun _ => (C8_non2xx_fetch_error (UpdateAvailable.mk "r" "1.0.0")
        "o" "https://g" ⟨404, Except.error "x"⟩
        ⟨404, Except.error "x"⟩ rfl rfl).2.1)
      (fun _ => (C8_non2xx_fetch_error (UpdateAvailable.mk "r" "1.0.0")
        "o" "https://g" ⟨404, Except.error "x"⟩
        ⟨404, Except.error "x"⟩ rfl rfl).2.2))

/-- Appending the empty string on the right is the identity. -/
theorem string_append_right_empty (s : String) : s ++ "" = s := by
  cases s with
  | mk data =>
    show String.mk (data ++ []) = String.mk data
    rw [List.append_nil]

/-- A dispatched check writes nothing to stdout when it returns a
successful result: only the non-2xx branch of a dispatcher operation
prints. -/
theorem dispatch_ok_no_stdout (n c : String) (src : Source)
    (rc : HttpResponse CratesResponse) (rf : HttpResponse GiteaHubResponse)
    (info : UpdateInfo)
    (h : (dispatchCheck n c src rc rf).2 = Except.ok info) :
    (dispatchCheck n c src rc rf).1 = "" := by
  cases src with
  | CratesIo =>
    unfold dispatchCheck UpdateAvailable.crates_io at h ⊢
    by_cases hs : statusIsSuccess rc.status = true
    · cases hb : rc.body <;> simp [hs, hb]
    · simp [hs] at h
  | Github user =>
    unfold dispatchCheck UpdateAvailable.github at h ⊢
    by_cases hs : statusIsSuccess rf.status = true
    · cases hb : rf.body <;> simp [hs, hb]
    · simp [hs] at h
  | Gitea user gitea_url =>
    unfold dispatchCheck UpdateAvailable.gitea at h ⊢
    by_cases hs : statusIsSuccess rf.status = true
    · cases hb : rf.body <;> simp [hs, hb]
    · simp [hs] at h

/-- Counterexample to claim C9: on a failing check (HTTP 404 from
crates.io) `print_check` does produce output — the dispatcher's non-2xx
branch printed its fetch-failure line to stdout before the error was
swallowed — so the underlying check can fail without the output being
empty. -/
theorem C9_counterexample :
    print_check "serde" "1.0.0" Source.CratesIo ⟨404, Except.error "x"⟩
      ⟨404, Except.error "x"⟩
      = "Failed to fetch data from crates.io: 404\n"
    ∧ (dispatchCheck "serde" "1.0.0" Source.CratesIo ⟨404, Except.error "x"⟩
        ⟨404, Except.error "x"⟩).2
      = Except.error "Failed to fetch data from crates.io: 404"
    ∧ print_check "serde" "1.0.0" Source.CratesIo ⟨404, Except.error "x"⟩
      ⟨404, Except.error "x"⟩ ≠ "" :=
  ⟨rfl, rfl, by decide⟩

/-- Claim C9 as amended: `print_check` never propagates an error. When
the underlying check fails, the error is swallowed and the formatted
update summary is not printed, but the output is not necessarily empty:
on a non-2xx response the dispatcher itself already printed its
`Failed to fetch data from <source>: <status>` line, and that text is
exactly what the failing call shows. When the check succeeds the
dispatcher printed nothing, and `print_check` prints the formatted
summary exactly when the resulting `UpdateInfo` has
`is_update_available = true`, printing nothing otherwise. -/
theorem C9_print_check_amended (n c : String) (src : Source)
    (rc : HttpResponse CratesResponse) (rf : HttpResponse GiteaHubResponse) :
    (∀ e, (dispatchCheck n c src rc rf).2 = Except.error e →
      print_check n c src rc rf = (dispatchCheck n c src rc rf).1)
    ∧ (∀ info, (dispatchCheck n c src rc rf).2 = Except.ok info →
        (dispatchCheck n c src rc rf).1 = ""
        ∧ (info.is_update_available = false →
            print_check n c src rc rf = "")
        ∧ (info.is_update_available = true →
            print_check n c src rc rf = info.displayString ++ "\n")) := by
  constructor
  · intro e h
    simp only [print_check]
    rw [h]
    exact string_append_right_empty _
  · intro info h
    have h1 : (dispatchCheck n c src rc rf).1 = "" :=
      dispatch_ok_no_stdout n c src rc rf info h
    refine ⟨h1, ?_, ?_⟩
    · intro hflag
      simp only [print_check]
      rw [h, h1]
      simp [UpdateInfo.printOutput, hflag]
    · intro hflag
      simp only [print_check]
      rw [h, h1]
      simp [UpdateInfo.printOutput, hflag]

/-- Witness for the amended C9 at concrete inputs: a 404 check shows
exactly the dispatcher's own fetch-failure line, a successful check
with no newer version writes nothing, and a successful check with a
newer version writes the formatted summary. -/
theorem C9_print_check_amended_witness :
    print_check "serde" "1.0.0" Source.CratesIo ⟨404, Except.error "x"⟩
      ⟨404, Except.error "x"⟩
      = (dispatchCheck "serde" "1.0.0" Source.CratesIo ⟨404, Except.error "x"⟩
          ⟨404, Except.error "x"⟩).1
    ∧ print_check "serde" "1.0.0" Source.CratesIo
        ⟨200, Except.ok ⟨⟨⟨1, 0, 0, "", ""⟩, "serde"⟩⟩⟩
        ⟨404, Except.error "x"⟩ = ""
    ∧ print_check "serde" "1.0.0" Source.CratesIo
        ⟨200, Except.ok ⟨⟨⟨2, 0, 0, "", ""⟩, "serde"⟩⟩⟩
        ⟨404, Except.error "x"⟩
      = (UpdateInfo.mk true ⟨2, 0, 0, "", ""⟩ none
          "https://crates.io/crates/serde").displayString ++ "\n" :=
  ⟨(C9_print_check_amended "serde" "1.0.0" Source.CratesIo
      ⟨404, Except.error "x"⟩ ⟨404, Except.error "x"⟩).1
      "Failed to fetch data from crates.io: 404" rfl,
   ((C9_print_check_amended "serde" "1.0.0" Source.CratesIo
      ⟨200, Except.ok ⟨⟨⟨1, 0, 0, "", ""⟩, "serde"⟩⟩⟩
      ⟨404, Except.error "x"⟩).2
      (UpdateInfo.mk false ⟨1, 0, 0, "", ""⟩ none
        "https://crates.io/crates/serde") rfl).2.1 rfl,
   ((C9_print_check_amended "serde" "1.0.0" Source.CratesIo
      ⟨200, Except.ok ⟨⟨⟨2, 0, 0, "", ""⟩, "serde"⟩⟩⟩
      ⟨404, Except.error "x"⟩).2
      (UpdateInfo.mk true ⟨2, 0, 0, "", ""⟩ none
        "https://crates.io/crates/serde") rfl).2.2 rfl⟩

/-- Claim C10: `from_gitea_or_hub` parses the normalized tag before the
current-version string, so when both are syntactically invalid the one
error returned reports the "latest" side, not the "current" side. -/
theorem C10_latest_parsed_first (gr : GiteaHubResponse) (cur el ec : String)
    (hlat : Version.parse (normalizeTag gr.tag_name) = Except.error el)
    (hcur : Version.parse cur = Except.error ec) :
    UpdateInfo.from_gitea_or_hub gr cur
      = Except.error ("Failed to parse latest version: " ++ el) := by
  simp only [UpdateInfo.from_gitea_or_hub, hlat]

/-- Witness for C10 at concrete inputs: tag `"x"` and current version
`"y"` are both invalid, and the error reported is the latest-side one. -/
theorem C10_latest_parsed_first_witness :
    UpdateInfo.from_gitea_or_hub ⟨"x", none, "https://example/r"⟩ "y"
      = Except.error
        ("Failed to parse latest version: unexpected character while parsing version number") :=
  C10_latest_parsed_first ⟨"x", none, "https://example/r"⟩ "y" _ _ rfl rfl

section ScratchTests
open UpdateAvailableLib
example : Version.parse "1.2.3" = Except.ok ⟨1, 2, 3, "", ""⟩ := rfl
example : Version.parse "" = Except.error "empty string, expected a semantic version" := rfl
example : (Version.parse "not-a-version").isOk = false := by decide
example : Version.parse "1.2.3-alpha.1+build-7" = Except.ok ⟨1, 2, 3, "alpha.1", "build-7"⟩ := rfl
example : (Version.parse "1.2").isOk = false := by decide
example : (Version.parse "01.2.3").isOk = false := by decide
example : (Version.parse "1.2.3-").isOk = false := by decide
example : (Version.parse "1.2.3-0m").isOk = true := by decide
example : (Version.parse "1.2.3-01").isOk = false := by decide
example : (Version.parse "1.2.3+01").isOk = true := by decide
example : Version.toDisplay ⟨2, 0, 0, "", ""⟩ = "2.0.0" := by decide
example : rustLines "a\nb\n" = ["a", "b"] := rfl
example : rustLines "a\r\n\nb" = ["a", "", "b"] := rfl
example : rustLines "" = [] := rfl
example : changelogSection "## Header\n- a\n- b\n- c\n- d\n- e\n- f"
    = ["📝  Changelog:", "    - a", "    - b", "    - c", "    • (and more...)"] := rfl
example : changelogSection "- a\n- b\n- c\n- d\n- e\n- f"
    = ["📝  Changelog:", "    - a", "    - b", "    - c", "    - d", "    • (and more...)"] := rfl
example : renderChangelogLine "- foo" = some "    - foo" := rfl
example : renderChangelogLine "• bar" = some ("    " ++ " bar") := rfl
example : renderChangelogLine "baz" = some "    • baz" := rfl
example : normalizeTag "v1.2.3" = "1.2.3" := rfl
example : normalizeTag "v" = "" := rfl
example : UpdateInfo.from_gitea_or_hub ⟨"v1.0.0", none, "https://example/releases/1.0.0"⟩ "1.0.0"
    = Except.ok ⟨false, ⟨1, 0, 0, "", ""⟩, none, "https://example/releases/1.0.0"⟩ := rfl
example : UpdateInfo.from_crates ⟨⟨⟨2, 0, 0, "", ""⟩, "serde"⟩⟩ "1.0.0"
    = Except.ok ⟨true, ⟨2, 0, 0, "", ""⟩, none, "https://crates.io/crates/serde"⟩ := rfl
example : (UpdateAvailable.mk "serde" "1.0.0").crates_io ⟨404, Except.error "x"⟩
    = ("Failed to fetch data from crates.io: 404\n",
       Except.error "Failed to fetch data from crates.io: 404") := rfl
example : ((UpdateAvailable.mk "serde" "1.0.0").crates_io
    ⟨200, Except.ok ⟨⟨⟨2, 0, 0, "", ""⟩, "serde"⟩⟩⟩).1 = "" := rfl
end ScratchTests
